import Mathlib

/-!
Shallow embedding of PillsDB (`src/main.rs`): a typed in-memory key-value
store driven by a line-based command interpreter.

Modelling conventions:
* Rust `u8` bytes are `Nat` (all values produced are < 256).
* Rust `i64` is `Int`; the textual i64 parser enforces the 64-bit range
  explicitly, as `str::parse::<i64>` does.
* `f64` cannot be embedded faithfully (IEEE-754 parsing/formatting), so the
  float operations are parameters of the interpreter: `parseF64` stands for
  `str::parse::<f64>`, `f64ToString` for `f64::to_string`, and
  `f64DisplayBits` for the `Display` rendering of the `f64` obtained by
  `f64::from_ne_bytes`.  Every concrete input used in the theorems below
  avoids floats, so their behaviour never depends on these parameters.
* Native endianness is modelled as little-endian (the x86-64 / aarch64
  targets the program runs on).
* A Rust panic (a failing `unwrap`) in the command loop is the `panic`
  constructor of `Outcome`.
* `HashMap<String, DbValue>` is modelled as an association list with
  replace-on-insert semantics; iteration order for `DEBUG` is list order
  (the Rust iteration order is unspecified, and nothing below depends on it).
-/

namespace PillsDB

/-! ### UTF-8 byte layer

Rust guarantees that `s.as_bytes()` for `s : &str` is the UTF-8 encoding of
`s`, and `str::from_utf8` succeeds exactly on valid UTF-8.  We model both
with an explicit encoder and a validating decoder over `Nat` bytes. -/

/-- UTF-8 encoding of one Unicode scalar value (the contents of a `char`). -/
def encodeChar (n : Nat) : List Nat :=
  if n < 128 then [n]
  else if n < 2048 then [192 + n / 64, 128 + n % 64]
  else if n < 65536 then [224 + n / 4096, 128 + n / 64 % 64, 128 + n % 64]
  else [240 + n / 262144, 128 + n / 4096 % 64, 128 + n / 64 % 64, 128 + n % 64]

/-- UTF-8 encoding of a string, as Rust's `str::as_bytes`. -/
def utf8Encode : List Char → List Nat
  | [] => []
  | c :: cs => encodeChar c.toNat ++ utf8Encode cs

/-- The bytes of a Rust `&str` / `String`. -/
def utf8Bytes (s : String) : List Nat :=
  utf8Encode s.data

/-- A UTF-8 continuation byte: `[0x80, 0xC0)`. -/
def contB (b : Nat) : Bool :=
  128 ≤ b && b < 192

/-- Scalar value assembled from a 2-byte sequence. -/
def scalar2 (b b1 : Nat) : Nat :=
  (b - 192) * 64 + (b1 - 128)

/-- Scalar value assembled from a 3-byte sequence. -/
def scalar3 (b b1 b2 : Nat) : Nat :=
  (b - 224) * 4096 + (b1 - 128) * 64 + (b2 - 128)

/-- Scalar value assembled from a 4-byte sequence. -/
def scalar4 (b b1 b2 b3 : Nat) : Nat :=
  (b - 240) * 262144 + (b1 - 128) * 4096 + (b2 - 128) * 64 + (b3 - 128)

/-- A 3-byte sequence must decode to `[0x800, 0x10000)` minus the surrogate
range (this rejects overlong forms and surrogates, as Rust does). -/
def valid3 (n : Nat) : Bool :=
  2048 ≤ n && (n < 55296 || 57344 ≤ n)

/-- A 4-byte sequence must decode to `[0x10000, 0x110000)`. -/
def valid4 (n : Nat) : Bool :=
  65536 ≤ n && n < 1114112

/-- Decode one UTF-8 sequence from the front of the byte list, with
byte-for-byte the acceptance rules of Rust's `str::from_utf8`: continuation
bytes in `[0x80, 0xC0)`, no overlong forms (leads `0xC0`/`0xC1` rejected,
3- and 4-byte lower bounds checked), no surrogates, scalar values below
`0x110000`.  Returns the scalar value and the remaining bytes. -/
def decodeOne (l : List Nat) : Option (Nat × List Nat) :=
  match l with
  | [] => none
  | b :: rest =>
    if b < 128 then some (b, rest)
    else if b < 194 then none
    else if b < 224 then
      match rest with
      | [] => none
      | b1 :: r =>
        if contB b1 then some (scalar2 b b1, r) else none
    else if b < 240 then
      match rest with
      | b1 :: b2 :: r =>
        if contB b1 && contB b2 && valid3 (scalar3 b b1 b2) then
          some (scalar3 b b1 b2, r)
        else none
      | _ => none
    else if b < 245 then
      match rest with
      | b1 :: b2 :: b3 :: r =>
        if contB b1 && contB b2 && contB b3 && valid4 (scalar4 b b1 b2 b3) then
          some (scalar4 b b1 b2 b3, r)
        else none
      | _ => none
    else none

/-- Fuel-driven decode loop (each step consumes at least one byte, so fuel
`l.length` always suffices). -/
def decodeLoop : Nat → List Nat → Option (List Nat)
  | _, [] => some []
  | 0, _ :: _ => none
  | Nat.succ fuel, b :: rest =>
    match decodeOne (b :: rest) with
    | some (n, r) => (decodeLoop fuel r).map (fun ns => n :: ns)
    | none => none

/-- Validating UTF-8 decoder: the scalar values of the byte list, or `none`
exactly when Rust's `str::from_utf8` would return `Err`. -/
def utf8DecodeList (l : List Nat) : Option (List Nat) :=
  decodeLoop l.length l

/-- `str::from_utf8` as a total function: `none` is the `Err` case. -/
def utf8Decode (bs : List Nat) : Option String :=
  (utf8DecodeList bs).map (fun ns => String.mk (ns.map Char.ofNat))

/-- Payload is valid UTF-8, i.e. `str::from_utf8` would succeed on it. -/
def validUtf8 (bs : List Nat) : Bool :=
  (utf8DecodeList bs).isSome

/-! ### The value model (`DataType`, `DbValue`) -/

/-- `enum DataType` from `src/main.rs`. -/
inductive DataType where
  | String
  | Int
  | Float
  | Bool
  deriving DecidableEq

/-- `struct DbValue { typetag: DataType, data: Vec<u8> }`. -/
structure DbValue where
  typetag : DataType
  data : List Nat
  deriving DecidableEq

/-- `DbValue::from_str`: tag `String`, payload `s.as_bytes()`. -/
def DbValue.from_str (s : String) : DbValue :=
  { typetag := DataType.String, data := utf8Bytes s }

/-- `DbValue::from_i64`: tag `Int`, payload the bytes of `i.to_string()`
(decimal text, `Int.repr` matches Rust's `i64::to_string`). -/
def DbValue.from_i64 (i : Int) : DbValue :=
  { typetag := DataType.Int, data := utf8Bytes (Int.repr i) }

/-- `DbValue::from_bool`: tag `Bool`, payload the bytes of `"true"`/`"false"`. -/
def DbValue.from_bool (b : Bool) : DbValue :=
  { typetag := DataType.Bool, data := utf8Bytes (if b then "true" else "false") }

/-- `DbValue::as_string`: `Some(str::from_utf8(&self.data).unwrap())` when the
tag is `String`, else `None`.  When the tag is `String` and the payload is not
valid UTF-8 the Rust code panics in `unwrap`; that case is the `none` with a
`String` tag here, and the command loop below turns it into `Outcome.panic`. -/
def DbValue.as_string (v : DbValue) : Option String :=
  if v.typetag = DataType.String then utf8Decode v.data else none

/-- `i64::from_ne_bytes` on the first 8 bytes (little-endian two's complement). -/
def i64FromNeBytes (bs : List Nat) : Int :=
  let u : Nat := (bs.take 8).foldr (fun b acc => b + 256 * acc) 0
  if u < 2 ^ 63 then (u : Int) else (u : Int) - 2 ^ 64

/-- `DbValue::as_int`: requires tag `Int` and exactly 8 payload bytes, then
reinterprets them via `i64::from_ne_bytes`. -/
def DbValue.as_int (v : DbValue) : Option Int :=
  if v.typetag = DataType.Int ∧ v.data.length = 8 then
    some (i64FromNeBytes (v.data.take 8))
  else none

/-- `DbValue::as_float`: requires tag `Float` and exactly 8 payload bytes.
The resulting `f64` is represented by its 8 native-endian bytes
(`f64::from_ne_bytes` is the identity on that representation). -/
def DbValue.as_float (v : DbValue) : Option (List Nat) :=
  if v.typetag = DataType.Float ∧ v.data.length = 8 then
    some (v.data.take 8)
  else none

/-- `DbValue::as_bool`: requires tag `Bool` and a non-empty payload, then
returns `data[0] != 0`. -/
def DbValue.as_bool (v : DbValue) : Option Bool :=
  if v.typetag = DataType.Bool ∧ v.data ≠ [] then
    some (v.data.headD 0 != 0)
  else none

/-! ### The store (`Database`) -/

/-- Replace-or-append update of an association list: the semantics of
`HashMap::insert` (at most one entry per key, full replacement). -/
def listSet : List (String × DbValue) → String → DbValue → List (String × DbValue)
  | [], k, v => [(k, v)]
  | (k', v') :: t, k, v =>
    if k' = k then (k, v) :: t else (k', v') :: listSet t k v

/-- `struct Database { db: HashMap<String, DbValue> }`, with the map as an
association list. -/
structure Database where
  db : List (String × DbValue)
  deriving DecidableEq

/-- `Database::new`. -/
def Database.new : Database := { db := [] }

/-- `Database::get`: `self.db.get(key)`. -/
def Database.get (d : Database) (key : String) : Option DbValue :=
  (d.db.find? (fun p => p.1 == key)).map Prod.snd

/-- `Database::set`: `self.db.insert(key, value)`. -/
def Database.set (d : Database) (key : String) (value : DbValue) : Database :=
  { db := listSet d.db key value }

/-! ### Textual parsers used by the SET branch -/

/-- `str::parse::<i64>`: optional `+`/`-` sign, one or more ASCII digits,
value within the signed 64-bit range. -/
def parseI64 (s : String) : Option Int :=
  match s.data with
  | [] => none
  | c :: cs =>
    let signed : Bool × List Char :=
      if c = '-' then (true, cs)
      else if c = '+' then (false, cs)
      else (false, c :: cs)
    if signed.2 = [] then none
    else if signed.2.all Char.isDigit then
      let n : Nat := signed.2.foldl (fun a d => a * 10 + (d.toNat - 48)) 0
      let v : Int := if signed.1 then -(n : Int) else (n : Int)
      if -(2 ^ 63) ≤ v ∧ v ≤ 2 ^ 63 - 1 then some v else none
    else none

/-- `str::parse::<bool>`: exactly `"true"` or `"false"`. -/
def parseBool (s : String) : Option Bool :=
  if s = "true" then some true
  else if s = "false" then some false
  else none

/-! ### Tokenization (`input.trim().split(" ")`) -/

/-- Rust `str::trim` on the character list (leading and trailing whitespace
removed). -/
def trimChars (cs : List Char) : List Char :=
  ((cs.dropWhile Char.isWhitespace).reverse.dropWhile Char.isWhitespace).reverse

/-- Rust `str::split(" ")`: splits at every single space, keeping empty
pieces; always yields at least one piece (`"".split(" ")` is `[""]`). -/
def splitSpaces : List Char → List (List Char)
  | [] => [[]]
  | c :: cs =>
    if c.toNat = 32 then
      [] :: splitSpaces cs
    else
      match splitSpaces cs with
      | [] => [[c]]
      | t :: ts => (c :: t) :: ts

/-- `input.trim().split(" ").collect::<Vec<&str>>()`. -/
def tokenize (line : String) : List String :=
  (splitSpaces (trimChars line.data)).map String.mk

/-! ### The command interpreter (one iteration of the `main` loop) -/

/-- Result of processing one input line: the updated store together with the
lines printed, or a Rust panic (a failing `unwrap`). -/
inductive Outcome where
  | ok (d : Database) (out : List String)
  | panic
  deriving DecidableEq

/-- Rust `str::to_uppercase` (ASCII case mapping; the commands compared
against are ASCII, where the two case mappings agree). -/
def strUpper (s : String) : String :=
  String.mk (s.data.map Char.toUpper)

/-- Rust `str::to_lowercase` (ASCII case mapping, as above). -/
def strLower (s : String) : String :=
  String.mk (s.data.map Char.toLower)

/-- Rust `[&str]::join(sep)` for a single-space separator. -/
def joinSpaces : List String → String
  | [] => ""
  | [s] => s
  | s :: rest => s ++ " " ++ joinSpaces rest

/-- Name of a `DataType` variant as printed by the derived `Debug`. -/
def debugTagName : DataType → String
  | DataType.String => "String"
  | DataType.Int => "Int"
  | DataType.Float => "Float"
  | DataType.Bool => "Bool"

/-- `", ".join` of the decimal bytes, for the derived `Debug` of `Vec<u8>`. -/
def joinCommaSep : List String → String
  | [] => ""
  | [s] => s
  | s :: rest => s ++ ", " ++ joinCommaSep rest

/-- The derived `Debug` rendering of a `DbValue`
(`DbValue \x7b typetag: Int, data: [52, 50] \x7d`). -/
def DbValue.debugFmt (v : DbValue) : String :=
  "DbValue \x7b typetag: " ++ debugTagName v.typetag ++ ", data: [" ++
    joinCommaSep (v.data.map Nat.repr) ++ "] \x7d"

section Interpreter

/- Stand-ins for the `f64` operations (see the header comment):
`parseF64` = `str::parse::<f64>`, `f64ToString` = `f64::to_string`,
`f64DisplayBits` = `Display` of `f64::from_ne_bytes(bytes)`. -/
variable {F64 : Type} (parseF64 : String → Option F64)
  (f64ToString : F64 → String) (f64DisplayBits : List Nat → String)

/-- `DbValue::from_f64`: tag `Float`, payload the bytes of `f.to_string()`. -/
def DbValue.from_f64 (f : F64) : DbValue :=
  { typetag := DataType.Float, data := utf8Bytes (f64ToString f) }

/-- The body of the `main` loop after `read_line`, on the token list:
dispatch on the upper-cased command, perform the operation, and return the
new store plus printed lines (or `panic` for a failing `unwrap`). -/
def processTokens (d : Database) (toks : List String) : Outcome :=
  if toks.isEmpty then Outcome.ok d []
  else
    let cmd := strUpper (toks.headD "")
    if cmd = "GET" then
      if toks.length < 2 then Outcome.ok d ["Usage: GET <key>"]
      else
        let key := toks.getD 1 ""
        match d.get key with
        | some value =>
          match value.typetag with
          | DataType.String =>
            match value.as_string with
            | some s => Outcome.ok d [key ++ ": " ++ s]
            | none => Outcome.panic
          | DataType.Int =>
            match value.as_int with
            | some i => Outcome.ok d [key ++ ": " ++ Int.repr i]
            | none => Outcome.panic
          | DataType.Float =>
            match value.as_float with
            | some bits => Outcome.ok d [key ++ ": " ++ f64DisplayBits bits]
            | none => Outcome.panic
          | DataType.Bool =>
            match value.as_bool with
            | some b => Outcome.ok d [key ++ ": " ++ (if b then "true" else "false")]
            | none => Outcome.panic
        | none => Outcome.ok d ["Key not found"]
    else if cmd = "SET" then
      if toks.length < 3 then
        Outcome.ok d ["Usage: SET <key> <type> <value>", "Types: str, int, float, bool"]
      else
        let key := toks.getD 1 ""
        let value_type := strLower (toks.getD 2 "")
        let value_str := joinSpaces (toks.drop 3)
        if value_type = "str" ∨ value_type = "string" then
          Outcome.ok (d.set key (DbValue.from_str value_str)) ["SET successful"]
        else if value_type = "int" ∨ value_type = "i64" then
          match parseI64 value_str with
          | some i => Outcome.ok (d.set key (DbValue.from_i64 i)) ["SET successful"]
          | none => Outcome.ok d ["Invalid integer value"]
        else if value_type = "float" ∨ value_type = "f64" then
          match parseF64 value_str with
          | some f => Outcome.ok (d.set key (DbValue.from_f64 f64ToString f)) ["SET successful"]
          | none => Outcome.ok d ["Invalid float value"]
        else if value_type = "bool" then
          match parseBool value_str with
          | some b => Outcome.ok (d.set key (DbValue.from_bool b)) ["SET successful"]
          | none => Outcome.ok d ["Invalid boolean value (use 'true' or 'false')"]
        else Outcome.ok d ["Invalid type. Use: str, int, float, bool"]
    else if cmd = "DEBUG" then
      Outcome.ok d (d.db.map (fun p => p.1 ++ ": " ++ p.2.debugFmt))
    else Outcome.ok d ["Unknown command"]

/-- One iteration of the `main` loop on a raw input line. -/
def step (d : Database) (line : String) : Outcome :=
  processTokens parseF64 f64ToString f64DisplayBits d (tokenize line)

/-- Run the loop over a list of input lines, collecting all printed lines;
a panic anywhere aborts the process. -/
def runLines (d : Database) : List String → Outcome
  | [] => Outcome.ok d []
  | l :: ls =>
    match step parseF64 f64ToString f64DisplayBits d l with
    | Outcome.ok d2 out =>
      match runLines d2 ls with
      | Outcome.ok d3 out2 => Outcome.ok d3 (out ++ out2)
      | Outcome.panic => Outcome.panic
    | Outcome.panic => Outcome.panic

end Interpreter

/-- A vacuous float model: the concrete inputs in the theorems below never
mention the float type, so their behaviour is the same under every float
model; this one lets closed statements be evaluated. -/
def noF64Parse : String → Option Unit := fun _ => none

/-- Vacuous `f64::to_string` for the model above. -/
def unitF64ToString : Unit → String := fun _ => ""

/-- Vacuous `Display`-of-bits rendering for the model above. -/
def noBitsDisplay : List Nat → String := fun _ => ""

/-- `step` under the vacuous float model. -/
def step0 : Database → String → Outcome :=
  step noF64Parse unitF64ToString noBitsDisplay

/-- `runLines` under the vacuous float model. -/
def runLines0 : Database → List String → Outcome :=
  runLines noF64Parse unitF64ToString noBitsDisplay

/-! ## Supporting lemmas: the UTF-8 encoder round-trips through the decoder -/

theorem encodeChar_ne_nil (n : Nat) : encodeChar n ≠ [] := by
  simp only [encodeChar]
  split_ifs <;> simp

theorem encodeChar_length_pos (n : Nat) : 1 ≤ (encodeChar n).length := by
  cases hE : encodeChar n with
  | nil => exact absurd hE (encodeChar_ne_nil n)
  | cons x xs => simp

theorem decodeOne_encodeChar (n : Nat) (h : Nat.isValidChar n) (bs : List Nat) :
    decodeOne (encodeChar n ++ bs) = some (n, bs) := by
  have hv : n < 55296 ∨ (57343 < n ∧ n < 1114112) := h
  simp only [encodeChar]
  split_ifs with h1 h2 h3
  · simp only [List.cons_append, List.nil_append, decodeOne]
    rw [if_pos h1]
  · simp only [List.cons_append, List.nil_append, decodeOne]
    rw [if_neg (by omega), if_neg (by omega), if_pos (by omega)]
    rw [if_pos (show contB (128 + n % 64) = true by simp [contB]; omega)]
    have e : scalar2 (192 + n / 64) (128 + n % 64) = n := by simp [scalar2]; omega
    rw [e]
  · simp only [List.cons_append, List.nil_append, decodeOne]
    rw [if_neg (by omega), if_neg (by omega), if_neg (by omega), if_pos (by omega)]
    have e : scalar3 (224 + n / 4096) (128 + n / 64 % 64) (128 + n % 64) = n := by
      simp [scalar3]; omega
    rw [if_pos (by simp [contB, valid3, e]; omega)]
    rw [e]
  · simp only [List.cons_append, List.nil_append, decodeOne]
    rw [if_neg (by omega), if_neg (by omega), if_neg (by omega), if_neg (by omega),
      if_pos (by omega)]
    have e : scalar4 (240 + n / 262144) (128 + n / 4096 % 64) (128 + n / 64 % 64)
        (128 + n % 64) = n := by
      simp [scalar4]; omega
    rw [if_pos (by simp [contB, valid4, e]; omega)]
    rw [e]

theorem decodeLoop_utf8Encode (cs : List Char) :
    ∀ fuel, (utf8Encode cs).length ≤ fuel →
      decodeLoop fuel (utf8Encode cs) = some (cs.map Char.toNat) := by
  induction cs with
  | nil =>
    intro fuel h
    cases fuel with
    | zero => rfl
    | succ f => rfl
  | cons c cs ih =>
    intro fuel h
    have hcv : Nat.isValidChar c.toNat := c.valid
    obtain ⟨b, bs', hb⟩ : ∃ b bs', encodeChar c.toNat ++ utf8Encode cs = b :: bs' := by
      cases hE : encodeChar c.toNat with
      | nil => exact absurd hE (encodeChar_ne_nil _)
      | cons x xs => exact ⟨x, xs ++ utf8Encode cs, by simp [hE]⟩
    have h1 : 1 ≤ (encodeChar c.toNat).length := encodeChar_length_pos _
    simp only [utf8Encode] at h ⊢
    have hf : (utf8Encode cs).length ≤ fuel - 1 ∧ 1 ≤ fuel := by
      rw [List.length_append] at h
      omega
    cases fuel with
    | zero => omega
    | succ f =>
      rw [hb]
      simp only [decodeLoop]
      rw [← hb, decodeOne_encodeChar c.toNat hcv]
      simp only [List.map_cons]
      rw [ih f (by omega)]
      rfl

theorem utf8DecodeList_utf8Encode (cs : List Char) :
    utf8DecodeList (utf8Encode cs) = some (cs.map Char.toNat) :=
  decodeLoop_utf8Encode cs _ le_rfl

/-- Decoding the bytes of any Rust string succeeds and reproduces the string:
`str::from_utf8(s.as_bytes()) == Ok(s)`. -/
theorem utf8Decode_utf8Bytes (s : String) : utf8Decode (utf8Bytes s) = some s := by
  rw [utf8Decode, utf8Bytes, utf8DecodeList_utf8Encode]
  simp only [Option.map_some', List.map_map, Function.comp_def, Char.ofNat_toNat,
    List.map_id']

theorem validUtf8_utf8Bytes (s : String) : validUtf8 (utf8Bytes s) = true := by
  rw [validUtf8, utf8Bytes, utf8DecodeList_utf8Encode]
  rfl

/-! ## Supporting lemmas: the store and the SET usage gate -/

theorem find?_listSet (l : List (String × DbValue)) (k : String) (v : DbValue) :
    (listSet l k v).find? (fun p => p.1 == k) = some (k, v) := by
  induction l with
  | nil => simp [listSet, List.find?]
  | cons p t ih =>
    obtain ⟨k', v'⟩ := p
    by_cases h : k' = k
    · simp [listSet, h, List.find?]
    · simp [listSet, h, List.find?, ih]

theorem Database.get_set_self (d : Database) (k : String) (v : DbValue) :
    (d.set k v).get k = some v := by
  simp [Database.get, Database.set, find?_listSet]

theorem mem_keys_listSet (l : List (String × DbValue)) (k x : String) (v : DbValue) :
    x ∈ (listSet l k v).map Prod.fst ↔ x ∈ l.map Prod.fst ∨ x = k := by
  induction l with
  | nil => simp [listSet]
  | cons p t ih =>
    obtain ⟨k', v'⟩ := p
    by_cases h : k' = k
    · subst h
      simp [listSet]
      tauto
    · simp [listSet, h, ih]
      tauto

theorem nodup_keys_listSet (l : List (String × DbValue)) (k : String) (v : DbValue)
    (h : (l.map Prod.fst).Nodup) : ((listSet l k v).map Prod.fst).Nodup := by
  induction l with
  | nil => simp [listSet]
  | cons p t ih =>
    obtain ⟨k', v'⟩ := p
    simp only [List.map_cons, List.nodup_cons] at h
    by_cases hk : k' = k
    · subst hk
      simp only [listSet, eq_self_iff_true, if_true, List.map_cons, List.nodup_cons]
      exact h
    · simp only [listSet, if_neg hk, List.map_cons, List.nodup_cons]
      refine ⟨?_, ih h.2⟩
      rw [mem_keys_listSet]
      rintro (hmem | rfl)
      · exact h.1 hmem
      · exact hk rfl

theorem tag_isolation (v : DbValue) :
    (v.typetag ≠ DataType.String → v.as_string = none) ∧
    (v.typetag ≠ DataType.Int → v.as_int = none) ∧
    (v.typetag ≠ DataType.Float → v.as_float = none) ∧
    (v.typetag ≠ DataType.Bool → v.as_bool = none) := by
  refine ⟨fun h => ?_, fun h => ?_, fun h => ?_, fun h => ?_⟩
  · simp [DbValue.as_string, h]
  · simp [DbValue.as_int, h]
  · simp [DbValue.as_float, h]
  · simp [DbValue.as_bool, h]

theorem processTokens_set_usage {F64 : Type} (pf : String → Option F64)
    (fts : F64 → String) (fdb : List Nat → String) (d : Database) (toks : List String)
    (h0 : toks ≠ []) (h1 : strUpper (toks.headD "") = "SET") (h2 : toks.length < 3) :
    processTokens pf fts fdb d toks =
      Outcome.ok d ["Usage: SET <key> <type> <value>", "Types: str, int, float, bool"] := by
  obtain ⟨t, ts, rfl⟩ := List.exists_cons_of_ne_nil h0
  simp only [List.headD_cons] at h1
  simp only [processTokens, List.isEmpty_cons, Bool.false_eq_true, if_false,
    List.headD_cons, h1, String.reduceEq, eq_self_iff_true, if_true]
  rw [if_pos h2]


/-! ## The claims -/

/-- Claim C1: the spec states that decoding the encoding of a value under its
own tag reproduces the value for all four types.  The code violates this for
Int (and Float) because `from_i64` stores the decimal text of the integer
while `as_int` demands exactly 8 bytes (`"42"` has 2), and for Bool because
`as_bool` reads `data[0] != 0` and the first byte of `"false"` is `'f'`:
`as_int(from_i64(42))` is `None` and `as_bool(from_bool(false))` is
`Some(true)`. -/
theorem roundtrip_fails_for_int_and_bool :
    (DbValue.from_i64 42).as_int = none ∧
    (DbValue.from_bool false).as_bool = some true ∧
    (DbValue.from_str "s").as_string = some "s" := by
  refine ⟨by decide, by decide, ?_⟩
  simp [DbValue.as_string, DbValue.from_str, utf8Decode_utf8Bytes]

/-- Claim C2: the spec states `from_i64(i)` stores the raw 8-byte
native-endian two's-complement representation of `i` (and similarly for
`from_f64`).  The code instead stores the bytes of `i.to_string()`:
`from_i64(42)` stores the two ASCII bytes `"42"`, not 8 bytes.  (The Bool
and String parts of the claim do hold: `from_bool` stores the ASCII text
`"true"`/`"false"` and `from_str` the raw UTF-8 bytes.) -/
theorem from_i64_stores_decimal_text :
    (DbValue.from_i64 42).data = [52, 50] ∧
    (DbValue.from_i64 42).data.length ≠ 8 ∧
    (DbValue.from_bool true).data = [116, 114, 117, 101] ∧
    (DbValue.from_bool false).data = [102, 97, 108, 115, 101] := by
  decide

/-- Claim C3: the spec states no input line ever aborts the process.  But
`GET` on a key holding an Int value panics: the stored payload is decimal
text (here `"-1"`, 2 bytes), `as_int` returns `None`, and the `GET` branch
calls `.unwrap()` on it. -/
theorem get_on_int_value_panics :
    runLines0 Database.new ["SET x int -1", "GET x"] = Outcome.panic := by
  decide

/-- Claim C4: the spec's own scenario: `SET age int 42` does print
`SET successful`, but the subsequent `GET age` panics (instead of printing
`age: 42`): the stored payload is the 2-byte text `"42"`, `as_int` returns
`None`, and the `GET` branch unwraps it. -/
theorem set_age_succeeds_then_get_age_panics :
    step0 Database.new "SET age int 42" =
      Outcome.ok (Database.mk [("age", DbValue.from_i64 42)]) ["SET successful"] ∧
    step0 (Database.mk [("age", DbValue.from_i64 42)]) "GET age" = Outcome.panic := by
  decide

/-- Claim C5: the spec states an empty (or all-whitespace) line is a silent
no-op.  In the code `"".trim().split(" ")` yields `[""]`, never the empty
vector, so the `is_empty` guard is dead and the empty command word falls
through to the catch-all branch: the store is unchanged but `Unknown command`
is printed. -/
theorem empty_line_prints_unknown_command :
    step0 Database.new "" = Outcome.ok Database.new ["Unknown command"] ∧
    step0 Database.new "   " = Outcome.ok Database.new ["Unknown command"] := by
  decide

/-- Claim C6 counterexample: the claim states a 3-token line such as
`SET k str` is rejected with the usage message and the store unmodified.
The code's arity check is `input.len() < 3`, so the line is accepted: it
prints `SET successful` and stores the empty string under `k`. -/
theorem set_three_tokens_is_accepted :
    step0 Database.new "SET k str" =
      Outcome.ok (Database.mk [("k", DbValue.from_str "")]) ["SET successful"] := by
  decide

/-- Claim C6 (amended): a SET line with fewer than 3 tokens (command, key,
type) emits the two-line usage error listing the accepted type names and
leaves the store unmodified; with exactly 3 tokens the value text is the
empty string, which `str` stores as an empty string value. -/
theorem set_fewer_than_three_tokens_usage_error {F64 : Type}
    (pf : String → Option F64) (fts : F64 → String) (fdb : List Nat → String)
    (d : Database) (toks : List String) (h0 : toks ≠ [])
    (h1 : strUpper (toks.headD "") = "SET") (h2 : toks.length < 3) :
    processTokens pf fts fdb d toks =
      Outcome.ok d ["Usage: SET <key> <type> <value>", "Types: str, int, float, bool"] :=
  processTokens_set_usage pf fts fdb d toks h0 h1 h2

/-- Witness for C6's amended theorem at the concrete line `SET k`. -/
theorem set_fewer_than_three_tokens_usage_error_witness :
    processTokens noF64Parse unitF64ToString noBitsDisplay Database.new ["SET", "k"] =
      Outcome.ok Database.new
        ["Usage: SET <key> <type> <value>", "Types: str, int, float, bool"] :=
  set_fewer_than_three_tokens_usage_error noF64Parse unitF64ToString noBitsDisplay
    Database.new ["SET", "k"] (by decide) (by decide) (by decide)

/-- Claim C7: an accessor for a tag different from the value's own tag
returns `None`, never a panic or error — each accessor checks the tag first
and falls through to `None` on mismatch. -/
theorem accessor_tag_isolation (v : DbValue) :
    (v.typetag ≠ DataType.String → v.as_string = none) ∧
    (v.typetag ≠ DataType.Int → v.as_int = none) ∧
    (v.typetag ≠ DataType.Float → v.as_float = none) ∧
    (v.typetag ≠ DataType.Bool → v.as_bool = none) :=
  tag_isolation v

/-- Witness for C7 at concrete mismatched values. -/
theorem accessor_tag_isolation_witness :
    (DbValue.from_i64 0).as_string = none ∧ (DbValue.from_str "a").as_int = none ∧
    (DbValue.from_bool true).as_float = none ∧ (DbValue.from_str "a").as_bool = none :=
  ⟨(accessor_tag_isolation (DbValue.from_i64 0)).1 (by decide),
    (accessor_tag_isolation (DbValue.from_str "a")).2.1 (by decide),
    (accessor_tag_isolation (DbValue.from_bool true)).2.2.1 (by decide),
    (accessor_tag_isolation (DbValue.from_str "a")).2.2.2 (by decide)⟩

/-- Claim C8: on a parse error the store really is left unmodified (the SET
branch `continue`s before `Database::set`), but the claim's own scenario then
fails: with the prior value `SET age int 42`, the subsequent `GET age` panics
(see C1/C4) instead of rendering the prior value `42`. -/
theorem invalid_int_value_no_partial_write :
    step0 (Database.mk [("age", DbValue.from_i64 42)]) "SET age int notanumber" =
      Outcome.ok (Database.mk [("age", DbValue.from_i64 42)]) ["Invalid integer value"] ∧
    step0 (Database.mk [("age", DbValue.from_i64 42)]) "GET age" = Outcome.panic := by
  decide

/-- Claim C9: the store keeps at most one value per key (`Database::set`
preserves distinctness of stored keys), and a second SET on the same key
fully replaces the first: `get k` after `set k v1; set k v2` is `some v2`. -/
theorem set_replaces_not_merges :
    (∀ (d : Database) (k : String) (v : DbValue),
      (d.db.map Prod.fst).Nodup → (((d.set k v).db.map Prod.fst).Nodup)) ∧
    (∀ (d : Database) (k : String) (v1 v2 : DbValue),
      ((d.set k v1).set k v2).get k = some v2) :=
  ⟨fun d k v h => nodup_keys_listSet d.db k v h,
    fun d k v1 v2 => Database.get_set_self (d.set k v1) k v2⟩

/-- Witness for C9 at a concrete store: overwriting `k` yields only `v2`. -/
theorem set_replaces_not_merges_witness :
    (((Database.new.set "k" (DbValue.from_str "v1")).db.map Prod.fst).Nodup) ∧
    ((Database.new.set "k" (DbValue.from_str "v1")).set "k"
        (DbValue.from_str "v2")).get "k" = some (DbValue.from_str "v2") :=
  ⟨set_replaces_not_merges.1 Database.new "k" (DbValue.from_str "v1") (by decide),
    set_replaces_not_merges.2 Database.new "k" (DbValue.from_str "v1")
      (DbValue.from_str "v2")⟩

/-- Claim C10: every constructor stores a valid UTF-8 payload (`from_str`
stores the bytes of a Rust string, the others store the bytes of decimal /
`"true"`/`"false"` / `to_string` text), so the `str::from_utf8(...).unwrap()`
inside `as_string` never panics on a constructor-built value: on `from_str`
values it returns the original string, and on the other tags `as_string`
returns `None` before ever decoding. -/
theorem constructor_payloads_are_valid_utf8 {F64 : Type} (fts : F64 → String)
    (s : String) (i : Int) (b : Bool) (f : F64) :
    validUtf8 (DbValue.from_str s).data = true ∧
    validUtf8 (DbValue.from_i64 i).data = true ∧
    validUtf8 (DbValue.from_bool b).data = true ∧
    validUtf8 (DbValue.from_f64 fts f).data = true ∧
    (DbValue.from_str s).as_string = some s := by
  refine ⟨validUtf8_utf8Bytes s, validUtf8_utf8Bytes _, validUtf8_utf8Bytes _,
    validUtf8_utf8Bytes _, ?_⟩
  simp [DbValue.as_string, DbValue.from_str, utf8Decode_utf8Bytes]

end PillsDB
